import Mathlib

/-!
Shallow embedding of `src/dpf_model.py` (DPF_CALC): a closed-form model of
diesel particulate filter loading.  Numeric fields are modelled as rationals;
Python's `ZeroDivisionError` is modelled by returning `none` from the
functions that divide by a caller-supplied denominator.
-/

namespace DPFCalc

/-- Mirror of the `DPFInputs` dataclass (the spec calls it `DrivingInputs`). -/
structure DPFInputs where
  mileage_km : ℚ
  avg_speed_kmh : ℚ
  city_ratio : ℚ
  oil_ash_content_pct : ℚ
  fuel_sulfur_ppm : ℚ
  regen_interval_km : ℚ
deriving DecidableEq, Repr

/-- Mirror of the `DPFParams` dataclass (the spec calls it `RateParams`). -/
structure DPFParams where
  dpf_capacity_units : ℚ
  base_soot_rate_per_1000km : ℚ
  ash_factor_per_pct_per_1000km : ℚ
  sulfur_factor_per_1000ppm : ℚ
  low_speed_threshold_kmh : ℚ
  low_speed_sensitivity : ℚ
  city_sensitivity : ℚ
deriving DecidableEq, Repr

/-- The default `DPFParams()` instance from the source. -/
def defaultDPFParams : DPFParams :=
  { dpf_capacity_units := 100
    base_soot_rate_per_1000km := 1
    ash_factor_per_pct_per_1000km := 1/10
    sulfur_factor_per_1000ppm := 1
    low_speed_threshold_kmh := 60
    low_speed_sensitivity := 1
    city_sensitivity := 3/2 }

/-- Mirror of the `DPFState` dataclass (the spec calls it `LoadState`);
field order follows the source. -/
structure DPFState where
  soot_load : ℚ
  ash_load : ℚ
  total_ratio : ℚ
  soot_ratio : ℚ
  ash_ratio : ℚ
deriving DecidableEq, Repr

/-- `np.clip(x, lo, hi)`. -/
def clip (x lo hi : ℚ) : ℚ := min hi (max lo x)

/-- `km_thousands = inputs.mileage_km / 1000.0`. -/
def km_thousands (inputs : DPFInputs) : ℚ := inputs.mileage_km / 1000

/-- `soot_factor_city = 1.0 + params.city_sensitivity * np.clip(inputs.city_ratio, 0.0, 1.0)`. -/
def soot_factor_city (inputs : DPFInputs) (params : DPFParams) : ℚ :=
  1 + params.city_sensitivity * clip inputs.city_ratio 0 1

/-- `low_speed_delta = max(0.0, params.low_speed_threshold_kmh - inputs.avg_speed_kmh)`. -/
def low_speed_delta (inputs : DPFInputs) (params : DPFParams) : ℚ :=
  max 0 (params.low_speed_threshold_kmh - inputs.avg_speed_kmh)

/-- `speed_factor = 1.0 + params.low_speed_sensitivity * (low_speed_delta / params.low_speed_threshold_kmh)`. -/
def speed_factor (inputs : DPFInputs) (params : DPFParams) : ℚ :=
  1 + params.low_speed_sensitivity *
    (low_speed_delta inputs params / params.low_speed_threshold_kmh)

/-- `sulfur_factor = 1.0 + params.sulfur_factor_per_1000ppm * (inputs.fuel_sulfur_ppm / 1000.0)`. -/
def sulfur_factor (inputs : DPFInputs) (params : DPFParams) : ℚ :=
  1 + params.sulfur_factor_per_1000ppm * (inputs.fuel_sulfur_ppm / 1000)

/-- `soot_rate = params.base_soot_rate_per_1000km * soot_factor_city * speed_factor * sulfur_factor`. -/
def soot_rate (inputs : DPFInputs) (params : DPFParams) : ℚ :=
  params.base_soot_rate_per_1000km * soot_factor_city inputs params *
    speed_factor inputs params * sulfur_factor inputs params

/-- `soot_load = soot_rate * km_thousands`. -/
def soot_load (inputs : DPFInputs) (params : DPFParams) : ℚ :=
  soot_rate inputs params * km_thousands inputs

/-- `ash_rate = params.ash_factor_per_pct_per_1000km * inputs.oil_ash_content_pct`. -/
def ash_rate (inputs : DPFInputs) (params : DPFParams) : ℚ :=
  params.ash_factor_per_pct_per_1000km * inputs.oil_ash_content_pct

/-- `ash_load = ash_rate * km_thousands`. -/
def ash_load (inputs : DPFInputs) (params : DPFParams) : ℚ :=
  ash_rate inputs params * km_thousands inputs

/-- The `DPFState(...)` record built at the end of `predict_dpf_state`:
`soot_ratio = soot_load / capacity`, `ash_ratio = ash_load / capacity`,
`total_ratio = soot_ratio + ash_ratio`. -/
def stateOf (inputs : DPFInputs) (params : DPFParams) : DPFState :=
  { soot_load := soot_load inputs params
    ash_load := ash_load inputs params
    total_ratio := soot_load inputs params / params.dpf_capacity_units +
      ash_load inputs params / params.dpf_capacity_units
    soot_ratio := soot_load inputs params / params.dpf_capacity_units
    ash_ratio := ash_load inputs params / params.dpf_capacity_units }

/-- `predict_dpf_state(inputs, params)`.  The Python body divides by
`params.low_speed_threshold_kmh` (inside `speed_factor`) and by
`params.dpf_capacity_units` (the ratios); a zero denominator raises
`ZeroDivisionError`, modelled here as `none`.  Otherwise it returns the
fully computed `DPFState`. -/
def predict_dpf_state (inputs : DPFInputs) (params : DPFParams) : Option DPFState :=
  if params.low_speed_threshold_kmh = 0 then none
  else if params.dpf_capacity_units = 0 then none
  else some (stateOf inputs params)

/-- One row of the DataFrame built by `simulate_vehicle_lifecycle`:
`asdict(inp)` (the six input fields in dataclass order) followed by the
five `DPFState` fields, in the order the source inserts them. -/
structure LifecycleRow where
  mileage_km : ℚ
  avg_speed_kmh : ℚ
  city_ratio : ℚ
  oil_ash_content_pct : ℚ
  fuel_sulfur_ppm : ℚ
  regen_interval_km : ℚ
  soot_load : ℚ
  ash_load : ℚ
  total_ratio : ℚ
  soot_ratio : ℚ
  ash_ratio : ℚ
deriving DecidableEq, Repr

/-- Flattening of `{**asdict(inp), "soot_load": state.soot_load, ...}`. -/
def mkRow (inp : DPFInputs) (state : DPFState) : LifecycleRow :=
  { mileage_km := inp.mileage_km
    avg_speed_kmh := inp.avg_speed_kmh
    city_ratio := inp.city_ratio
    oil_ash_content_pct := inp.oil_ash_content_pct
    fuel_sulfur_ppm := inp.fuel_sulfur_ppm
    regen_interval_km := inp.regen_interval_km
    soot_load := state.soot_load
    ash_load := state.ash_load
    total_ratio := state.total_ratio
    soot_ratio := state.soot_ratio
    ash_ratio := state.ash_ratio }

/-- `np.arange(0, stop, step)` for rational `stop`/`step` with `step > 0`:
the values `i * step` for `0 ≤ i < ⌈stop / step⌉`.  (With `step ≤ 0` and
`stop > 0` numpy yields an empty range; the source always calls it with a
positive step.) -/
def arange_from_zero (stop step : ℚ) : List ℚ :=
  if 0 < step then
    (List.range (Int.toNat ⌈stop / step⌉)).map (fun i : ℕ => (i : ℚ) * step)
  else []

/-- The `for m in mileages:` loop body of `simulate_vehicle_lifecycle`: for
each checkpoint `m` rebuild the input record with `mileage_km = m` (all
other fields copied from `base_inputs`), call `predict_dpf_state`, and
append the flattened row.  A `ZeroDivisionError` raised by
`predict_dpf_state` aborts the loop, modelled by `none`. -/
def simulate_rows (base_inputs : DPFInputs) (params : DPFParams) :
    List ℚ → Option (List LifecycleRow)
  | [] => some []
  | m :: ms =>
    match predict_dpf_state { base_inputs with mileage_km := m } params with
    | none => none
    | some state =>
      match simulate_rows base_inputs params ms with
      | none => none
      | some rows => some (mkRow { base_inputs with mileage_km := m } state :: rows)

/-- `simulate_vehicle_lifecycle(base_inputs, max_mileage_km, step_km, params)`:
`mileages = np.arange(0, max_mileage_km + step_km, step_km)`, then the
record-building loop over the checkpoints. -/
def simulate_vehicle_lifecycle (base_inputs : DPFInputs)
    (max_mileage_km step_km : ℚ) (params : DPFParams) :
    Option (List LifecycleRow) :=
  simulate_rows base_inputs params (arange_from_zero (max_mileage_km + step_km) step_km)

/-- Mirror of the `OilSpec` dataclass. -/
structure OilSpec where
  name : String
  sulfated_ash_pct : ℚ
  density_kg_per_l : ℚ
deriving DecidableEq, Repr

/-- Mirror of the `FuelSpec` dataclass. -/
structure FuelSpec where
  name : String
  sulfur_ppm : ℚ
  density_kg_per_l : ℚ
deriving DecidableEq, Repr

/-- Mirror of the `UsageProfile` dataclass. -/
structure UsageProfile where
  mileage_km : ℚ
  oil_consumption_l_per_1000km : ℚ
  fuel_consumption_l_per_100km : ℚ
deriving DecidableEq, Repr

/-- `calc_oil_ash_mass_g(profile, oil)`: grams of ash from engine oil. -/
def calc_oil_ash_mass_g (profile : UsageProfile) (oil : OilSpec) : ℚ :=
  let oil_liters := (profile.mileage_km / 1000) * profile.oil_consumption_l_per_1000km
  let oil_mass_kg := oil_liters * oil.density_kg_per_l
  let ash_mass_kg := oil_mass_kg * (oil.sulfated_ash_pct / 100)
  ash_mass_kg * 1000

/-- `calc_fuel_ash_mass_g(profile, fuel, sulfur_to_ash_factor)`: grams of
ash from fuel sulfur (`1 ppm = 1e-6` by mass). -/
def calc_fuel_ash_mass_g (profile : UsageProfile) (fuel : FuelSpec)
    (sulfur_to_ash_factor : ℚ) : ℚ :=
  let fuel_liters := (profile.mileage_km / 100) * profile.fuel_consumption_l_per_100km
  let fuel_mass_kg := fuel_liters * fuel.density_kg_per_l
  let sulfur_mass_kg := fuel_mass_kg * (fuel.sulfur_ppm * (1 / 1000000))
  let ash_mass_kg := sulfur_mass_kg * sulfur_to_ash_factor
  ash_mass_kg * 1000

/-- The dict returned by `calc_dpf_ash_fill`, one field per key. -/
structure AshFillResult where
  oil_ash_g : ℚ
  fuel_ash_g : ℚ
  total_ash_g : ℚ
  dpf_capacity_ash_g : ℚ
  fill_ratio : ℚ
  fill_percent : ℚ
deriving DecidableEq, Repr

/-- `calc_dpf_ash_fill(profile, oil, fuel, dpf_capacity_ash_g, sulfur_to_ash_factor)`.
The division `total_ash_g / dpf_capacity_ash_g` raises `ZeroDivisionError`
when the capacity is zero, modelled as `none`. -/
def calc_dpf_ash_fill (profile : UsageProfile) (oil : OilSpec) (fuel : FuelSpec)
    (dpf_capacity_ash_g sulfur_to_ash_factor : ℚ) : Option AshFillResult :=
  let oil_ash_g := calc_oil_ash_mass_g profile oil
  let fuel_ash_g := calc_fuel_ash_mass_g profile fuel sulfur_to_ash_factor
  let total_ash_g := oil_ash_g + fuel_ash_g
  if dpf_capacity_ash_g = 0 then none
  else
    some
      { oil_ash_g := oil_ash_g
        fuel_ash_g := fuel_ash_g
        total_ash_g := total_ash_g
        dpf_capacity_ash_g := dpf_capacity_ash_g
        fill_ratio := total_ash_g / dpf_capacity_ash_g
        fill_percent := total_ash_g / dpf_capacity_ash_g * 100 }

end DPFCalc

namespace DPFCalc

/-! Helper lemmas shared by the claim theorems. -/

lemma predict_eq_some (inputs : DPFInputs) (params : DPFParams)
    (hthr : params.low_speed_threshold_kmh ≠ 0) (hcap : params.dpf_capacity_units ≠ 0) :
    predict_dpf_state inputs params = some (stateOf inputs params) := by
  rw [predict_dpf_state, if_neg hthr, if_neg hcap]

lemma clip01_nonneg (x : ℚ) : 0 ≤ clip x 0 1 :=
  le_min (by norm_num) (le_max_left _ _)

lemma clip01_le_one (x : ℚ) : clip x 0 1 ≤ 1 := min_le_left _ _

lemma clip01_idem (x : ℚ) : clip (clip x 0 1) 0 1 = clip x 0 1 := by
  rw [clip, max_eq_right (clip01_nonneg x), min_eq_right (clip01_le_one x)]

lemma predict_congr_city (inputs : DPFInputs) (params : DPFParams) (c c' : ℚ)
    (h : clip c 0 1 = clip c' 0 1) :
    predict_dpf_state { inputs with city_ratio := c } params =
      predict_dpf_state { inputs with city_ratio := c' } params := by
  obtain ⟨m, v, cr, pct, ppm, r⟩ := inputs
  simp [predict_dpf_state, stateOf, soot_load, soot_rate, soot_factor_city, speed_factor,
    low_speed_delta, sulfur_factor, ash_load, ash_rate, km_thousands, h]

lemma soot_factor_city_nonneg (inputs : DPFInputs) (params : DPFParams)
    (h : 0 ≤ params.city_sensitivity) : 0 ≤ soot_factor_city inputs params := by
  have := mul_nonneg h (clip01_nonneg inputs.city_ratio)
  unfold soot_factor_city; linarith

lemma low_speed_delta_nonneg (inputs : DPFInputs) (params : DPFParams) :
    0 ≤ low_speed_delta inputs params := le_max_left _ _

lemma speed_factor_nonneg (inputs : DPFInputs) (params : DPFParams)
    (hthr : 0 < params.low_speed_threshold_kmh)
    (hsens : 0 ≤ params.low_speed_sensitivity) : 0 ≤ speed_factor inputs params := by
  have := mul_nonneg hsens
    (div_nonneg (low_speed_delta_nonneg inputs params) hthr.le)
  unfold speed_factor; linarith

lemma sulfur_factor_nonneg (inputs : DPFInputs) (params : DPFParams)
    (hsulf : 0 ≤ params.sulfur_factor_per_1000ppm)
    (hppm : 0 ≤ inputs.fuel_sulfur_ppm) : 0 ≤ sulfur_factor inputs params := by
  have := mul_nonneg hsulf (div_nonneg hppm (by norm_num : (0:ℚ) ≤ 1000))
  unfold sulfur_factor; linarith

lemma soot_rate_nonneg (inputs : DPFInputs) (params : DPFParams)
    (hbase : 0 ≤ params.base_soot_rate_per_1000km)
    (hcity : 0 ≤ params.city_sensitivity)
    (hthr : 0 < params.low_speed_threshold_kmh)
    (hsens : 0 ≤ params.low_speed_sensitivity)
    (hsulf : 0 ≤ params.sulfur_factor_per_1000ppm)
    (hppm : 0 ≤ inputs.fuel_sulfur_ppm) : 0 ≤ soot_rate inputs params :=
  mul_nonneg
    (mul_nonneg (mul_nonneg hbase (soot_factor_city_nonneg inputs params hcity))
      (speed_factor_nonneg inputs params hthr hsens))
    (sulfur_factor_nonneg inputs params hsulf hppm)

lemma simulate_rows_eq_map (base : DPFInputs) (params : DPFParams)
    (hthr : params.low_speed_threshold_kmh ≠ 0) (hcap : params.dpf_capacity_units ≠ 0)
    (l : List ℚ) :
    simulate_rows base params l = some (l.map fun m =>
      mkRow { base with mileage_km := m } (stateOf { base with mileage_km := m } params)) := by
  induction l with
  | nil => rfl
  | cons m ms ih =>
    simp only [simulate_rows, predict_eq_some _ _ hthr hcap, ih, List.map_cons]

lemma arange_15000 : arange_from_zero ((10000:ℚ) + 5000) 5000 = [0, 5000, 10000] := by
  have h2 : ⌈((10000:ℚ) + 5000) / 5000⌉ = 3 := by
    rw [Int.ceil_eq_iff]; norm_num
  rw [arange_from_zero, if_pos (by norm_num), h2]
  rw [show List.range (Int.toNat 3) = [0, 1, 2] from rfl]
  norm_num [List.map_cons, List.map_nil]

lemma arange_12000 : arange_from_zero ((7000:ℚ) + 5000) 5000 = [0, 5000, 10000] := by
  have h2 : ⌈((7000:ℚ) + 5000) / 5000⌉ = 3 := by
    rw [Int.ceil_eq_iff]; norm_num
  rw [arange_from_zero, if_pos (by norm_num), h2]
  rw [show List.range (Int.toNat 3) = [0, 1, 2] from rfl]
  norm_num [List.map_cons, List.map_nil]

/-- Claim C1, counterexample: the claim says the rows cover the checkpoints
from 0 to `max_mileage_km` inclusive, but with `max_mileage_km = 7000` and
`step_km = 5000 > 0` the sweep produces mileage values `[0, 5000, 10000]`,
and `10000` exceeds `max_mileage_km = 7000`. -/
theorem simulate_vehicle_lifecycle_overshoots_max :
    Option.map (List.map LifecycleRow.mileage_km)
      (simulate_vehicle_lifecycle ⟨0, 50, 1/2, 1, 10, 400⟩ 7000 5000 defaultDPFParams) =
      some [0, 5000, 10000] ∧
    ((0:ℚ) < 5000) ∧ ¬ ((10000:ℚ) ≤ 7000) := by
  refine ⟨?_, by norm_num, by norm_num⟩
  rw [show simulate_vehicle_lifecycle ⟨0, 50, 1/2, 1, 10, 400⟩ 7000 5000 defaultDPFParams =
      simulate_rows ⟨0, 50, 1/2, 1, 10, 400⟩ defaultDPFParams
        (arange_from_zero (7000 + 5000) 5000) from rfl,
    arange_12000,
    simulate_rows_eq_map _ _ (by norm_num [defaultDPFParams]) (by norm_num [defaultDPFParams])]
  rfl

/-- Claim C1 (amended): for `step_km > 0` and nonzero threshold/capacity,
`simulate_vehicle_lifecycle` returns exactly one row per checkpoint
`i * step_km` for `0 ≤ i < ⌈(max_mileage_km + step_km) / step_km⌉` — an
ascending arithmetic sweep starting at 0 which equals “0 to `max_mileage_km`
inclusive” exactly when `step_km` divides `max_mileage_km` — with each row
copying every non-mileage input field from the base input and carrying
precisely the `DPFState` fields that a direct `predict_dpf_state` call at
that checkpoint returns; in particular `max_mileage_km = 10000`,
`step_km = 5000` yields exactly the mileage values `[0, 5000, 10000]`. -/
theorem simulate_vehicle_lifecycle_checkpoints :
    (∀ (base : DPFInputs) (max_mileage_km step_km : ℚ) (params : DPFParams),
      0 < step_km → params.low_speed_threshold_kmh ≠ 0 → params.dpf_capacity_units ≠ 0 →
      ∃ rows : List LifecycleRow,
        simulate_vehicle_lifecycle base max_mileage_km step_km params = some rows ∧
        rows.length = (⌈(max_mileage_km + step_km) / step_km⌉).toNat ∧
        ∀ i (hi : i < rows.length),
          (rows.get ⟨i, hi⟩).mileage_km = (i : ℚ) * step_km ∧
          (rows.get ⟨i, hi⟩).avg_speed_kmh = base.avg_speed_kmh ∧
          (rows.get ⟨i, hi⟩).city_ratio = base.city_ratio ∧
          (rows.get ⟨i, hi⟩).oil_ash_content_pct = base.oil_ash_content_pct ∧
          (rows.get ⟨i, hi⟩).fuel_sulfur_ppm = base.fuel_sulfur_ppm ∧
          (rows.get ⟨i, hi⟩).regen_interval_km = base.regen_interval_km ∧
          predict_dpf_state { base with mileage_km := (i : ℚ) * step_km } params =
            some { soot_load := (rows.get ⟨i, hi⟩).soot_load
                   ash_load := (rows.get ⟨i, hi⟩).ash_load
                   total_ratio := (rows.get ⟨i, hi⟩).total_ratio
                   soot_ratio := (rows.get ⟨i, hi⟩).soot_ratio
                   ash_ratio := (rows.get ⟨i, hi⟩).ash_ratio }) ∧
    (∀ (base : DPFInputs) (params : DPFParams),
      params.low_speed_threshold_kmh ≠ 0 → params.dpf_capacity_units ≠ 0 →
      Option.map (List.map LifecycleRow.mileage_km)
        (simulate_vehicle_lifecycle base 10000 5000 params) = some [0, 5000, 10000]) := by
  constructor
  · intro base max_mileage_km step_km params hstep hthr hcap
    have hrows : simulate_vehicle_lifecycle base max_mileage_km step_km params =
        some ((List.range (⌈(max_mileage_km + step_km) / step_km⌉).toNat).map fun i : ℕ =>
          mkRow { base with mileage_km := (i : ℚ) * step_km }
            (stateOf { base with mileage_km := (i : ℚ) * step_km } params)) := by
      show simulate_rows base params
          (arange_from_zero (max_mileage_km + step_km) step_km) = _
      rw [arange_from_zero, if_pos hstep, simulate_rows_eq_map base params hthr hcap,
        List.map_map]
      rfl
    refine ⟨_, hrows, by simp, ?_⟩
    intro i hi
    have hg : ((List.range (⌈(max_mileage_km + step_km) / step_km⌉).toNat).map fun j : ℕ =>
        mkRow { base with mileage_km := (j : ℚ) * step_km }
          (stateOf { base with mileage_km := (j : ℚ) * step_km } params)).get ⟨i, hi⟩ =
        mkRow { base with mileage_km := (i : ℚ) * step_km }
          (stateOf { base with mileage_km := (i : ℚ) * step_km } params) := by
      simp [List.get_eq_getElem, List.getElem_map, List.getElem_range]
    rw [hg]
    exact ⟨rfl, rfl, rfl, rfl, rfl, rfl, by rw [predict_eq_some _ _ hthr hcap]; rfl⟩
  · intro base params hthr hcap
    rw [show simulate_vehicle_lifecycle base 10000 5000 params =
        simulate_rows base params (arange_from_zero (10000 + 5000) 5000) from rfl,
      arange_15000, simulate_rows_eq_map base params hthr hcap]
    rfl

/-- Claim C1 witness: the sweep theorem applied to a concrete base input,
`max_mileage_km = 10000`, `step_km = 5000` and the default parameters. -/
theorem simulate_vehicle_lifecycle_checkpoints_witness :
    (∃ rows : List LifecycleRow,
      simulate_vehicle_lifecycle ⟨0, 50, 1/2, 1, 10, 400⟩ 10000 5000 defaultDPFParams =
        some rows ∧
      rows.length = (⌈(((10000:ℚ)) + 5000) / 5000⌉).toNat ∧
      ∀ i (hi : i < rows.length),
        (rows.get ⟨i, hi⟩).mileage_km = (i : ℚ) * 5000 ∧
        (rows.get ⟨i, hi⟩).avg_speed_kmh = (50:ℚ) ∧
        (rows.get ⟨i, hi⟩).city_ratio = (1/2:ℚ) ∧
        (rows.get ⟨i, hi⟩).oil_ash_content_pct = (1:ℚ) ∧
        (rows.get ⟨i, hi⟩).fuel_sulfur_ppm = (10:ℚ) ∧
        (rows.get ⟨i, hi⟩).regen_interval_km = (400:ℚ) ∧
        predict_dpf_state ⟨(i : ℚ) * 5000, 50, 1/2, 1, 10, 400⟩ defaultDPFParams =
          some { soot_load := (rows.get ⟨i, hi⟩).soot_load
                 ash_load := (rows.get ⟨i, hi⟩).ash_load
                 total_ratio := (rows.get ⟨i, hi⟩).total_ratio
                 soot_ratio := (rows.get ⟨i, hi⟩).soot_ratio
                 ash_ratio := (rows.get ⟨i, hi⟩).ash_ratio }) ∧
    Option.map (List.map LifecycleRow.mileage_km)
      (simulate_vehicle_lifecycle ⟨0, 50, 1/2, 1, 10, 400⟩ 10000 5000 defaultDPFParams) =
      some [0, 5000, 10000] :=
  ⟨simulate_vehicle_lifecycle_checkpoints.1 ⟨0, 50, 1/2, 1, 10, 400⟩ 10000 5000
    defaultDPFParams (by norm_num) (by norm_num [defaultDPFParams])
    (by norm_num [defaultDPFParams]),
   simulate_vehicle_lifecycle_checkpoints.2 ⟨0, 50, 1/2, 1, 10, 400⟩ defaultDPFParams
    (by norm_num [defaultDPFParams]) (by norm_num [defaultDPFParams])⟩

/-- Claim C2: with `mileage_km = 0` and nonzero capacity and low-speed
threshold, `predict_dpf_state` returns zero soot load, zero ash load and
zero ratios, regardless of every other field and parameter. -/
theorem predict_dpf_state_zero_mileage (inputs : DPFInputs) (params : DPFParams)
    (h0 : inputs.mileage_km = 0) (hcap : params.dpf_capacity_units ≠ 0)
    (hthr : params.low_speed_threshold_kmh ≠ 0) :
    predict_dpf_state inputs params = some ⟨0, 0, 0, 0, 0⟩ := by
  simp [predict_dpf_state, hthr, hcap, stateOf, soot_load, ash_load, km_thousands, h0]

/-- Claim C2 witness: the zero-mileage theorem at a concrete input with the
default parameters. -/
theorem predict_dpf_state_zero_mileage_witness :
    predict_dpf_state ⟨0, 50, 1/2, 1, 10, 400⟩ defaultDPFParams = some ⟨0, 0, 0, 0, 0⟩ :=
  predict_dpf_state_zero_mileage _ _ rfl (by norm_num [defaultDPFParams])
    (by norm_num [defaultDPFParams])

/-- Claim C3, counterexample: at `avg_speed_kmh = -60` with the default
parameters (threshold 60, sensitivity 1), `low_speed_delta` is `120`, not
the threshold `60`, and `speed_factor` is `3`, not `1 + sensitivity = 2`:
a negative speed produces a penalty exceeding the claimed maximum. -/
theorem low_speed_delta_negative_speed_exceeds_threshold :
    low_speed_delta ⟨0, -60, 0, 0, 0, 400⟩ defaultDPFParams = 120 ∧
    ¬ (low_speed_delta ⟨0, -60, 0, 0, 0, 400⟩ defaultDPFParams =
        defaultDPFParams.low_speed_threshold_kmh) ∧
    speed_factor ⟨0, -60, 0, 0, 0, 400⟩ defaultDPFParams = 3 ∧
    ¬ (speed_factor ⟨0, -60, 0, 0, 0, 400⟩ defaultDPFParams =
        1 + defaultDPFParams.low_speed_sensitivity) := by
  norm_num [low_speed_delta, speed_factor, defaultDPFParams, max_def]

/-- Claim C3 (amended): `low_speed_delta = max(0, threshold - avg_speed)`,
and for a negative speed (with positive threshold and nonnegative
sensitivity) the delta equals `threshold - avg_speed`, which strictly
exceeds the threshold, so `speed_factor` is at least `1 + sensitivity`
(the penalty is at least — in general more than — the at-zero-speed one);
the input is not rejected as invalid. -/
theorem low_speed_delta_negative_speed (inputs : DPFInputs) (params : DPFParams)
    (hv : inputs.avg_speed_kmh < 0) (hthr : 0 < params.low_speed_threshold_kmh)
    (hsens : 0 ≤ params.low_speed_sensitivity) :
    low_speed_delta inputs params =
      params.low_speed_threshold_kmh - inputs.avg_speed_kmh ∧
    params.low_speed_threshold_kmh < low_speed_delta inputs params ∧
    1 + params.low_speed_sensitivity ≤ speed_factor inputs params := by
  have hd : low_speed_delta inputs params =
      params.low_speed_threshold_kmh - inputs.avg_speed_kmh := by
    rw [low_speed_delta, max_eq_right (by linarith)]
  refine ⟨hd, by rw [hd]; linarith, ?_⟩
  rw [speed_factor, hd]
  have hq : 1 ≤ (params.low_speed_threshold_kmh - inputs.avg_speed_kmh) /
      params.low_speed_threshold_kmh := (one_le_div hthr).mpr (by linarith)
  nlinarith [mul_le_mul_of_nonneg_left hq hsens]

/-- Claim C3 witness: the amended negative-speed theorem at
`avg_speed_kmh = -60` with the default parameters. -/
theorem low_speed_delta_negative_speed_witness :
    low_speed_delta ⟨0, -60, 0, 0, 0, 400⟩ defaultDPFParams =
      defaultDPFParams.low_speed_threshold_kmh - (-60) ∧
    defaultDPFParams.low_speed_threshold_kmh <
      low_speed_delta ⟨0, -60, 0, 0, 0, 400⟩ defaultDPFParams ∧
    1 + defaultDPFParams.low_speed_sensitivity ≤
      speed_factor ⟨0, -60, 0, 0, 0, 400⟩ defaultDPFParams :=
  low_speed_delta_negative_speed ⟨0, -60, 0, 0, 0, 400⟩ defaultDPFParams (by norm_num)
    (by norm_num [defaultDPFParams]) (by norm_num [defaultDPFParams])

/-- Claim C4: `predict_dpf_state` clamps `city_ratio` to `[0, 1]` before
use and applies no other validation to it: replacing `city_ratio` by
`min 1 (max 0 city_ratio)` leaves the output unchanged, and in particular
`city_ratio = 2` produces output identical to `city_ratio = 1`. -/
theorem predict_dpf_state_city_ratio_clamped :
    (∀ (inputs : DPFInputs) (params : DPFParams),
      predict_dpf_state { inputs with city_ratio := min 1 (max 0 inputs.city_ratio) } params =
        predict_dpf_state inputs params) ∧
    (∀ (inputs : DPFInputs) (params : DPFParams),
      predict_dpf_state { inputs with city_ratio := 2 } params =
        predict_dpf_state { inputs with city_ratio := 1 } params) := by
  constructor
  · intro inputs params
    have h : predict_dpf_state { inputs with city_ratio := inputs.city_ratio } params =
        predict_dpf_state inputs params := rfl
    rw [← h]
    exact predict_congr_city inputs params _ _ (clip01_idem inputs.city_ratio)
  · intro inputs params
    exact predict_congr_city inputs params 2 1 (by norm_num [clip, max_def, min_def])

/-- Claim C5, counterexample: with `fuel_sulfur_ppm = -2000` and the
default parameters, the sulfur factor is `-1`, so raising mileage from 0
to 1000 drops `soot_load` from 0 to `-1`: mileage monotonicity fails for
unrestricted inputs. -/
theorem predict_dpf_state_mileage_not_monotone :
    predict_dpf_state ⟨0, 60, 0, 0, -2000, 400⟩ defaultDPFParams = some ⟨0, 0, 0, 0, 0⟩ ∧
    predict_dpf_state ⟨1000, 60, 0, 0, -2000, 400⟩ defaultDPFParams =
      some ⟨-1, 0, -1/100, -1/100, 0⟩ ∧
    ((0:ℚ) ≤ 1000) ∧ ¬ ((0:ℚ) ≤ -1) := by
  norm_num [predict_dpf_state, stateOf, soot_load, soot_rate, soot_factor_city, speed_factor,
    low_speed_delta, sulfur_factor, ash_load, ash_rate, km_thousands, clip, defaultDPFParams,
    max_def, min_def]

/-- Claim C5 (amended): with positive capacity and threshold and
nonnegative rate parameters, sulfur content and oil ash content, two
inputs that agree on everything except `mileage_km` with the first mileage
≤ the second give pointwise ≤ `soot_load`, `ash_load`, `soot_ratio`,
`ash_ratio` and `total_ratio`. -/
theorem predict_dpf_state_mileage_monotone
    (inputs : DPFInputs) (params : DPFParams) (m2 : ℚ) (s1 s2 : DPFState)
    (hm : inputs.mileage_km ≤ m2)
    (hcap : 0 < params.dpf_capacity_units)
    (hthr : 0 < params.low_speed_threshold_kmh)
    (hbase : 0 ≤ params.base_soot_rate_per_1000km)
    (hcity : 0 ≤ params.city_sensitivity)
    (hsens : 0 ≤ params.low_speed_sensitivity)
    (hsulf : 0 ≤ params.sulfur_factor_per_1000ppm)
    (hashf : 0 ≤ params.ash_factor_per_pct_per_1000km)
    (hppm : 0 ≤ inputs.fuel_sulfur_ppm)
    (hpct : 0 ≤ inputs.oil_ash_content_pct)
    (h1 : predict_dpf_state inputs params = some s1)
    (h2 : predict_dpf_state { inputs with mileage_km := m2 } params = some s2) :
    s1.soot_load ≤ s2.soot_load ∧ s1.ash_load ≤ s2.ash_load ∧
    s1.soot_ratio ≤ s2.soot_ratio ∧ s1.ash_ratio ≤ s2.ash_ratio ∧
    s1.total_ratio ≤ s2.total_ratio := by
  rw [predict_eq_some _ _ hthr.ne' hcap.ne', Option.some.injEq] at h1 h2
  subst h1; subst h2
  have hrate : soot_rate { inputs with mileage_km := m2 } params = soot_rate inputs params := rfl
  have hkm : km_thousands inputs ≤ km_thousands { inputs with mileage_km := m2 } := by
    unfold km_thousands
    exact (div_le_div_iff_of_pos_right (by norm_num)).mpr hm
  have hsoot : soot_load inputs params ≤ soot_load { inputs with mileage_km := m2 } params := by
    unfold soot_load
    rw [hrate]
    exact mul_le_mul_of_nonneg_left hkm
      (soot_rate_nonneg inputs params hbase hcity hthr hsens hsulf hppm)
  have hashrate : ash_rate { inputs with mileage_km := m2 } params = ash_rate inputs params := rfl
  have hash : ash_load inputs params ≤ ash_load { inputs with mileage_km := m2 } params := by
    unfold ash_load
    rw [hashrate]
    exact mul_le_mul_of_nonneg_left hkm (mul_nonneg hashf hpct)
  refine ⟨hsoot, hash, ?_, ?_, ?_⟩
  · exact (div_le_div_iff_of_pos_right hcap).mpr hsoot
  · exact (div_le_div_iff_of_pos_right hcap).mpr hash
  · exact add_le_add ((div_le_div_iff_of_pos_right hcap).mpr hsoot)
      ((div_le_div_iff_of_pos_right hcap).mpr hash)

/-- Claim C5 witness: the mileage-monotonicity theorem at concrete inputs
(mileage 0 versus 1000, default parameters). -/
theorem predict_dpf_state_mileage_monotone_witness :
    predict_dpf_state ⟨0, 30, 0, 1, 0, 400⟩ defaultDPFParams = some ⟨0, 0, 0, 0, 0⟩ ∧
    predict_dpf_state ⟨1000, 30, 0, 1, 0, 400⟩ defaultDPFParams =
      some ⟨3/2, 1/10, 2/125, 3/200, 1/1000⟩ ∧
    ((0:ℚ) ≤ 3/2 ∧ (0:ℚ) ≤ 1/10 ∧ (0:ℚ) ≤ 3/200 ∧ (0:ℚ) ≤ 1/1000 ∧ (0:ℚ) ≤ 2/125) := by
  have e1 : predict_dpf_state ⟨0, 30, 0, 1, 0, 400⟩ defaultDPFParams = some ⟨0, 0, 0, 0, 0⟩ := by
    norm_num [predict_dpf_state, stateOf, soot_load, soot_rate, soot_factor_city, speed_factor,
      low_speed_delta, sulfur_factor, ash_load, ash_rate, km_thousands, clip, defaultDPFParams,
      max_def, min_def]
  have e2 : predict_dpf_state ⟨1000, 30, 0, 1, 0, 400⟩ defaultDPFParams =
      some ⟨3/2, 1/10, 2/125, 3/200, 1/1000⟩ := by
    norm_num [predict_dpf_state, stateOf, soot_load, soot_rate, soot_factor_city, speed_factor,
      low_speed_delta, sulfur_factor, ash_load, ash_rate, km_thousands, clip, defaultDPFParams,
      max_def, min_def]
  have h := predict_dpf_state_mileage_monotone ⟨0, 30, 0, 1, 0, 400⟩ defaultDPFParams 1000
    ⟨0, 0, 0, 0, 0⟩ ⟨3/2, 1/10, 2/125, 3/200, 1/1000⟩ (by norm_num)
    (by norm_num [defaultDPFParams]) (by norm_num [defaultDPFParams])
    (by norm_num [defaultDPFParams]) (by norm_num [defaultDPFParams])
    (by norm_num [defaultDPFParams]) (by norm_num [defaultDPFParams])
    (by norm_num [defaultDPFParams]) (by norm_num) (by norm_num) e1 e2
  refine ⟨e1, e2, ?_⟩
  simpa using h

/-- Claim C6, counterexample: with `fuel_sulfur_ppm = -2000` (default
parameters, mileage 1000), both speeds 0 and 30 are below the threshold
60, yet the lower speed gives `soot_load = -2`, which is smaller than the
higher speed's `-3/2`: speed antitonicity fails for unrestricted inputs. -/
theorem predict_dpf_state_speed_not_antitone :
    predict_dpf_state ⟨1000, 0, 0, 0, -2000, 400⟩ defaultDPFParams =
      some ⟨-2, 0, -1/50, -1/50, 0⟩ ∧
    predict_dpf_state ⟨1000, 30, 0, 0, -2000, 400⟩ defaultDPFParams =
      some ⟨-3/2, 0, -3/200, -3/200, 0⟩ ∧
    ((0:ℚ) < 30) ∧ ((0:ℚ) < 60) ∧ ((30:ℚ) < 60) ∧ ¬ ((-3/2:ℚ) ≤ -2) := by
  norm_num [predict_dpf_state, stateOf, soot_load, soot_rate, soot_factor_city, speed_factor,
    low_speed_delta, sulfur_factor, ash_load, ash_rate, km_thousands, clip, defaultDPFParams,
    max_def, min_def]

/-- Claim C6 (amended): with nonzero capacity, positive threshold,
nonnegative mileage, nonnegative rate parameters and nonnegative sulfur
content, two inputs that agree on everything except `avg_speed_kmh`, both
speeds below the threshold with the first strictly lower, give
`soot_load` of the first ≥ `soot_load` of the second. -/
theorem predict_dpf_state_speed_antitone
    (inputs : DPFInputs) (params : DPFParams) (v2 : ℚ) (s1 s2 : DPFState)
    (hv : inputs.avg_speed_kmh < v2) (hv2 : v2 < params.low_speed_threshold_kmh)
    (hcap : params.dpf_capacity_units ≠ 0)
    (hthr : 0 < params.low_speed_threshold_kmh)
    (hm : 0 ≤ inputs.mileage_km)
    (hbase : 0 ≤ params.base_soot_rate_per_1000km)
    (hcity : 0 ≤ params.city_sensitivity)
    (hsens : 0 ≤ params.low_speed_sensitivity)
    (hsulf : 0 ≤ params.sulfur_factor_per_1000ppm)
    (hppm : 0 ≤ inputs.fuel_sulfur_ppm)
    (h1 : predict_dpf_state inputs params = some s1)
    (h2 : predict_dpf_state { inputs with avg_speed_kmh := v2 } params = some s2) :
    s2.soot_load ≤ s1.soot_load := by
  rw [predict_eq_some _ _ hthr.ne' hcap, Option.some.injEq] at h1 h2
  subst h1; subst h2
  have hdelta : low_speed_delta { inputs with avg_speed_kmh := v2 } params ≤
      low_speed_delta inputs params := by
    unfold low_speed_delta
    exact max_le_max le_rfl (by simp; linarith)
  have hsf : speed_factor { inputs with avg_speed_kmh := v2 } params ≤
      speed_factor inputs params := by
    unfold speed_factor
    have := mul_le_mul_of_nonneg_left
      ((div_le_div_iff_of_pos_right hthr).mpr hdelta) hsens
    linarith
  have hA : 0 ≤ params.base_soot_rate_per_1000km * soot_factor_city inputs params :=
    mul_nonneg hbase (soot_factor_city_nonneg inputs params hcity)
  have hrate : soot_rate { inputs with avg_speed_kmh := v2 } params ≤
      soot_rate inputs params := by
    unfold soot_rate
    have hS : 0 ≤ sulfur_factor inputs params :=
      sulfur_factor_nonneg inputs params hsulf hppm
    have hstep : params.base_soot_rate_per_1000km *
        soot_factor_city { inputs with avg_speed_kmh := v2 } params *
        speed_factor { inputs with avg_speed_kmh := v2 } params ≤
        params.base_soot_rate_per_1000km * soot_factor_city inputs params *
        speed_factor inputs params :=
      mul_le_mul_of_nonneg_left hsf hA
    exact mul_le_mul_of_nonneg_right hstep hS
  show soot_load { inputs with avg_speed_kmh := v2 } params ≤ soot_load inputs params
  unfold soot_load
  have hkm : 0 ≤ km_thousands inputs := div_nonneg hm (by norm_num)
  exact mul_le_mul_of_nonneg_right hrate hkm

/-- Claim C6 witness: the speed-antitonicity theorem at concrete inputs
(speeds 0 versus 30, both below the default threshold 60). -/
theorem predict_dpf_state_speed_antitone_witness :
    predict_dpf_state ⟨1000, 0, 0, 0, 0, 400⟩ defaultDPFParams = some ⟨2, 0, 1/50, 1/50, 0⟩ ∧
    predict_dpf_state ⟨1000, 30, 0, 0, 0, 400⟩ defaultDPFParams =
      some ⟨3/2, 0, 3/200, 3/200, 0⟩ ∧
    ((3/2:ℚ) ≤ 2) := by
  have e1 : predict_dpf_state ⟨1000, 0, 0, 0, 0, 400⟩ defaultDPFParams =
      some ⟨2, 0, 1/50, 1/50, 0⟩ := by
    norm_num [predict_dpf_state, stateOf, soot_load, soot_rate, soot_factor_city, speed_factor,
      low_speed_delta, sulfur_factor, ash_load, ash_rate, km_thousands, clip, defaultDPFParams,
      max_def, min_def]
  have e2 : predict_dpf_state ⟨1000, 30, 0, 0, 0, 400⟩ defaultDPFParams =
      some ⟨3/2, 0, 3/200, 3/200, 0⟩ := by
    norm_num [predict_dpf_state, stateOf, soot_load, soot_rate, soot_factor_city, speed_factor,
      low_speed_delta, sulfur_factor, ash_load, ash_rate, km_thousands, clip, defaultDPFParams,
      max_def, min_def]
  have h := predict_dpf_state_speed_antitone ⟨1000, 0, 0, 0, 0, 400⟩ defaultDPFParams 30
    ⟨2, 0, 1/50, 1/50, 0⟩ ⟨3/2, 0, 3/200, 3/200, 0⟩ (by norm_num)
    (by norm_num [defaultDPFParams]) (by norm_num [defaultDPFParams])
    (by norm_num [defaultDPFParams]) (by norm_num) (by norm_num [defaultDPFParams])
    (by norm_num [defaultDPFParams]) (by norm_num [defaultDPFParams])
    (by norm_num [defaultDPFParams]) (by norm_num) e1 e2
  exact ⟨e1, e2, by simpa using h⟩

/-- Claim C7: `calc_oil_ash_mass_g` computes
`(mileage_km / 1000 * oil_consumption_l_per_1000km) * density_kg_per_l *
(sulfated_ash_pct / 100) * 1000` grams, and in particular
`42.5 = 85/2` grams at mileage 10000, consumption 0.5 l/1000km, ash 1%,
density 0.85 kg/l. -/
theorem calc_oil_ash_mass_g_spec :
    (∀ (profile : UsageProfile) (oil : OilSpec),
      calc_oil_ash_mass_g profile oil =
        profile.mileage_km / 1000 * profile.oil_consumption_l_per_1000km *
          oil.density_kg_per_l * (oil.sulfated_ash_pct / 100) * 1000) ∧
    calc_oil_ash_mass_g ⟨10000, 1/2, 6⟩ ⟨"oil", 1, 17/20⟩ = 85/2 :=
  ⟨fun _ _ => rfl, by norm_num [calc_oil_ash_mass_g]⟩

/-- Claim C8: with nonzero capacity, `calc_dpf_ash_fill` returns a record
whose `total_ash_g` is the sum of the oil and fuel ash masses, whose
`fill_ratio` is `total_ash_g / dpf_capacity_ash_g`, whose `fill_percent`
is `fill_ratio * 100`, and which also carries `oil_ash_g`, `fuel_ash_g`
and `dpf_capacity_ash_g`, each keyed by its field name. -/
theorem calc_dpf_ash_fill_spec (profile : UsageProfile) (oil : OilSpec) (fuel : FuelSpec)
    (dpf_capacity_ash_g sulfur_to_ash_factor : ℚ) (hcap : dpf_capacity_ash_g ≠ 0) :
    ∃ r : AshFillResult,
      calc_dpf_ash_fill profile oil fuel dpf_capacity_ash_g sulfur_to_ash_factor = some r ∧
      r.total_ash_g = calc_oil_ash_mass_g profile oil +
        calc_fuel_ash_mass_g profile fuel sulfur_to_ash_factor ∧
      r.fill_ratio = r.total_ash_g / r.dpf_capacity_ash_g ∧
      r.fill_percent = r.fill_ratio * 100 ∧
      r.oil_ash_g = calc_oil_ash_mass_g profile oil ∧
      r.fuel_ash_g = calc_fuel_ash_mass_g profile fuel sulfur_to_ash_factor ∧
      r.dpf_capacity_ash_g = dpf_capacity_ash_g := by
  refine ⟨⟨calc_oil_ash_mass_g profile oil,
      calc_fuel_ash_mass_g profile fuel sulfur_to_ash_factor,
      calc_oil_ash_mass_g profile oil + calc_fuel_ash_mass_g profile fuel sulfur_to_ash_factor,
      dpf_capacity_ash_g,
      (calc_oil_ash_mass_g profile oil +
        calc_fuel_ash_mass_g profile fuel sulfur_to_ash_factor) / dpf_capacity_ash_g,
      (calc_oil_ash_mass_g profile oil +
        calc_fuel_ash_mass_g profile fuel sulfur_to_ash_factor) / dpf_capacity_ash_g * 100⟩,
    ?_, rfl, rfl, rfl, rfl, rfl, rfl⟩
  simp only [calc_dpf_ash_fill, if_neg hcap]

/-- Claim C8 witness: the fill-record theorem at a concrete profile, oil,
fuel, capacity 120 g and sulfur-to-ash factor 3. -/
theorem calc_dpf_ash_fill_spec_witness :
    ∃ r : AshFillResult,
      calc_dpf_ash_fill ⟨10000, 1/2, 6⟩ ⟨"oil", 1, 17/20⟩ ⟨"fuel", 10, 21/25⟩ 120 3 = some r ∧
      r.total_ash_g = calc_oil_ash_mass_g ⟨10000, 1/2, 6⟩ ⟨"oil", 1, 17/20⟩ +
        calc_fuel_ash_mass_g ⟨10000, 1/2, 6⟩ ⟨"fuel", 10, 21/25⟩ 3 ∧
      r.fill_ratio = r.total_ash_g / r.dpf_capacity_ash_g ∧
      r.fill_percent = r.fill_ratio * 100 ∧
      r.oil_ash_g = calc_oil_ash_mass_g ⟨10000, 1/2, 6⟩ ⟨"oil", 1, 17/20⟩ ∧
      r.fuel_ash_g = calc_fuel_ash_mass_g ⟨10000, 1/2, 6⟩ ⟨"fuel", 10, 21/25⟩ 3 ∧
      r.dpf_capacity_ash_g = 120 :=
  calc_dpf_ash_fill_spec ⟨10000, 1/2, 6⟩ ⟨"oil", 1, 17/20⟩ ⟨"fuel", 10, 21/25⟩ 120 3
    (by norm_num)

/-- Claim C9: the only runtime failure in the core is division by a zero
capacity/threshold denominator — `predict_dpf_state` fails exactly when
`low_speed_threshold_kmh = 0` or `dpf_capacity_units = 0`, and
`calc_dpf_ash_fill` fails exactly when `dpf_capacity_ash_g = 0`; in every
other case a fully computed record is returned (the two mass functions
are total by construction). -/
theorem core_division_failure_iff :
    (∀ (inputs : DPFInputs) (params : DPFParams),
      predict_dpf_state inputs params = none ↔
        params.low_speed_threshold_kmh = 0 ∨ params.dpf_capacity_units = 0) ∧
    (∀ (profile : UsageProfile) (oil : OilSpec) (fuel : FuelSpec)
        (dpf_capacity_ash_g sulfur_to_ash_factor : ℚ),
      calc_dpf_ash_fill profile oil fuel dpf_capacity_ash_g sulfur_to_ash_factor = none ↔
        dpf_capacity_ash_g = 0) := by
  constructor
  · intro inputs params
    unfold predict_dpf_state
    split_ifs with h1 h2 <;> simp_all
  · intro profile oil fuel cap f
    unfold calc_dpf_ash_fill
    split_ifs with h <;> simp [h]

/-- Claim C9 witness: the failure characterization applied at a zero
capacity for both fallible functions. -/
theorem core_division_failure_iff_witness :
    predict_dpf_state ⟨0, 50, 0, 0, 0, 400⟩
      { defaultDPFParams with dpf_capacity_units := 0 } = none ∧
    calc_dpf_ash_fill ⟨10000, 1/2, 6⟩ ⟨"oil", 1, 17/20⟩ ⟨"fuel", 10, 21/25⟩ 0 3 = none :=
  ⟨(core_division_failure_iff.1 _ _).mpr (Or.inr rfl),
   (core_division_failure_iff.2 _ _ _ _ _).mpr rfl⟩

/-- Claim C10: `regen_interval_km` has no influence on `predict_dpf_state`
— replacing it by any value leaves the returned `DPFState` unchanged. -/
theorem predict_dpf_state_ignores_regen_interval :
    ∀ (inputs : DPFInputs) (params : DPFParams) (r : ℚ),
      predict_dpf_state { inputs with regen_interval_km := r } params =
        predict_dpf_state inputs params :=
  fun _ _ _ => rfl

end DPFCalc
